import Mathlib

/-!
Verification of the conceptual-domino engine (src/domino.py).

The embedding below translates the engine's data model and operations:
tiles with two conceptual faces, the board with two open end labels,
`place_tile_on_board`, the valid-move / auto-pass computation, the
"Play tile" handler, dealing hands at game start, and the rotate handler.
Python dicts become structures, the Streamlit session state becomes an
explicit `GameState` record, and the in-place mutations become pure
state-to-state functions returning the updated record.
-/

namespace Domino

/-- Tile orientation, toggled by the "Rotate tile" UI button. -/
inductive Orient where
  | horizontal
  | vertical
deriving DecidableEq

/-- A tile as built by `load_tiles_from_pdf`: two raw face expressions
`a`/`b`, their resolved concepts, and a presentation orientation. -/
structure Tile where
  id : Nat
  a : String
  b : String
  a_concept : String
  b_concept : String
  orientation : Orient
deriving DecidableEq

/-- The board dict of `init_board`: the tile chain plus the two open
end concept labels (None before the first placement). -/
structure Board where
  tiles : List Tile
  left_concept : Option String
  right_concept : Option String
deriving DecidableEq

/-- `init_board` from the source. -/
def init_board : Board :=
  { tiles := [], left_concept := none, right_concept := none }

/-- The `side` argument of `place_tile_on_board` ("left" / "right"). -/
inductive Side where
  | left
  | right
deriving DecidableEq

/-- How Python renders an `Option` concept inside an f-string
(None prints as "None", a string prints as itself). -/
def concept_str : Option String → String
  | none => "None"
  | some s => s

/-- The failure message of `place_tile_on_board`, carrying the expected
concept labels of both board ends. -/
def mismatch_message (board : Board) : String :=
  "Concept mismatch. Expected \x27" ++ concept_str board.left_concept ++
    "\x27 (left) or \x27" ++ concept_str board.right_concept ++ "\x27 (right)."

/-- `place_tile_on_board(tile, side)` from the source, with the session
board passed and returned explicitly. Returns the (success, feedback)
pair of the Python function together with the updated board. -/
def place_tile_on_board (tile : Tile) (side : Side) (board : Board) :
    Bool × String × Board :=
  if board.tiles = [] then
    (true, "First tile placed",
      { tiles := board.tiles ++ [tile],
        left_concept := some tile.a_concept,
        right_concept := some tile.b_concept })
  else
    match side with
    | Side.left =>
        if some tile.a_concept = board.left_concept then
          (true, "Matched left concept: " ++ tile.a_concept,
            { board with tiles := tile :: board.tiles,
                         left_concept := some tile.b_concept })
        else if some tile.b_concept = board.left_concept then
          (true, "Matched left concept: " ++ tile.b_concept,
            { board with tiles := tile :: board.tiles,
                         left_concept := some tile.a_concept })
        else
          (false, mismatch_message board, board)
    | Side.right =>
        if some tile.a_concept = board.right_concept then
          (true, "Matched right concept: " ++ tile.a_concept,
            { board with tiles := board.tiles ++ [tile],
                         right_concept := some tile.b_concept })
        else if some tile.b_concept = board.right_concept then
          (true, "Matched right concept: " ++ tile.b_concept,
            { board with tiles := board.tiles ++ [tile],
                         right_concept := some tile.a_concept })
        else
          (false, mismatch_message board, board)

/-- A player entry of the `players` session dict: a hand and a score. -/
structure Player where
  hand : List Tile
  score : Int
deriving DecidableEq

/-- The engine-relevant session state: the ordered players (the
`player_order` list zipped with the `players` dict), the turn index and
the board. -/
structure GameState where
  players : List Player
  turn_index : Nat
  board : Board
deriving DecidableEq

/-- Placeholder tile used only to totalize out-of-range list access;
every theorem below carries in-range hypotheses so it is never hit. -/
def default_tile : Tile :=
  { id := 0, a := "", b := "", a_concept := "", b_concept := "",
    orientation := Orient.horizontal }

/-- Placeholder player, as `default_tile`. -/
def default_player : Player := { hand := [], score := 0 }

/-- The dealing loop of the Start Game handler: player `i` receives the
contiguous slice `tiles[i * tiles_per : (i + 1) * tiles_per]`, with
`tiles_per = 14` for 2 players and `7` otherwise. -/
def dealHands (tiles : List Tile) (num_players : Nat) : List (List Tile) :=
  let tiles_per := if num_players = 2 then 14 else 7
  (List.range num_players).map (fun i => (tiles.drop (i * tiles_per)).take tiles_per)

/-- The "Rotate tile" handler: toggles the orientation field only. -/
def rotate_tile (t : Tile) : Tile :=
  { t with orientation :=
      if t.orientation = Orient.horizontal then Orient.vertical
      else Orient.horizontal }

/-- The per-tile condition of the `valid_indices` loop: an empty board
makes every tile valid; otherwise some face concept must be one of the
two open end labels. -/
def tile_matches (t : Tile) (b : Board) : Bool :=
  b.tiles.isEmpty ||
    (some t.a_concept == b.left_concept) || (some t.a_concept == b.right_concept) ||
    (some t.b_concept == b.left_concept) || (some t.b_concept == b.right_concept)

/-- The `valid_indices` list: indices of the current hand whose tile
satisfies `tile_matches`, in increasing order. -/
def valid_indices (hand : List Tile) (b : Board) : List Nat :=
  (hand.enum.filter (fun p => tile_matches p.2 b)).map Prod.fst

/-- Outcome of the pre-selection phase of a turn. -/
inductive TurnPhase where
  | autoPassed
  | awaitingSelection (valid : List Nat)
deriving DecidableEq

/-- The auto-pass block: if `valid_indices` is empty the turn passes
automatically (turn index advances, nothing else changes); otherwise the
engine awaits a selection among the valid indices. -/
def turn_step (s : GameState) : TurnPhase × GameState :=
  let hand := (s.players.getD s.turn_index default_player).hand
  let vi := valid_indices hand s.board
  if vi = [] then
    (TurnPhase.autoPassed,
      { s with turn_index := (s.turn_index + 1) % s.players.length })
  else
    (TurnPhase.awaitingSelection vi, s)

/-- Python `str.strip()`: drop leading and trailing whitespace. -/
def py_strip (s : String) : String :=
  List.asString
    (((s.toList.dropWhile Char.isWhitespace).reverse.dropWhile Char.isWhitespace).reverse)

/-- Outcome of the "Play tile" handler. -/
inductive MoveResult where
  | rejectedJustification
  | rejectedPlacement (feedback : String)
  | played (feedback : String)
deriving DecidableEq

/-- The "Play tile" handler: an empty (post-strip) justification is
rejected with no state change; an illegal placement is reported and
stops the run with the board untouched; a legal placement removes the
tile at `idx` from the acting hand, adds 4 to the acting score and
advances the turn index modulo the player count. -/
def playTile (s : GameState) (idx : Nat) (side : Side) (justification : String) :
    MoveResult × GameState :=
  if py_strip justification = "" then
    (MoveResult.rejectedJustification, s)
  else
    let player := s.players.getD s.turn_index default_player
    let tile := player.hand.getD idx default_tile
    let res := place_tile_on_board tile side s.board
    if res.1 then
      (MoveResult.played res.2.1,
        { players := s.players.set s.turn_index
            { hand := player.hand.eraseIdx idx, score := player.score + 4 },
          turn_index := (s.turn_index + 1) % s.players.length,
          board := res.2.2 })
    else
      (MoveResult.rejectedPlacement res.2.1, { s with board := res.2.2 })

/-- A tile with its presentation orientation normalized away; used to
compare board contents up to orientation. -/
def strip_orient (t : Tile) : Tile :=
  { t with orientation := Orient.horizontal }

/-- The orientation-independent observable content of a board: the tile
chain up to orientation, plus both end labels. -/
def board_shape (b : Board) : List Tile × Option String × Option String :=
  (b.tiles.map strip_orient, b.left_concept, b.right_concept)

/-- The board invariant of the spec: an empty chain has both end labels
null, a non-empty chain has both end labels set. -/
def board_inv (b : Board) : Prop :=
  (b.tiles = [] → b.left_concept = none ∧ b.right_concept = none) ∧
  (b.tiles ≠ [] → b.left_concept ≠ none ∧ b.right_concept ≠ none)

instance (b : Board) : Decidable (board_inv b) := by
  unfold board_inv; infer_instance

/-- On a failed placement the board is returned unchanged. -/
lemma place_fail_id (t : Tile) (side : Side) (b : Board)
    (h : (place_tile_on_board t side b).1 = false) :
    place_tile_on_board t side b = (false, mismatch_message b, b) := by
  unfold place_tile_on_board at h ⊢
  by_cases hE : b.tiles = []
  · simp [hE] at h
  · cases side <;> simp only [if_neg hE] at h ⊢ <;> split_ifs at h ⊢ <;> simp_all

/-- Claim C5: placing any tile on an empty board succeeds (for either
chosen end) and seeds the left end label with the face-A concept and the
right end label with the face-B concept, for every orientation. -/
theorem empty_board_placement_seeds_ends (t : Tile) (side : Side) (b : Board)
    (h : b.tiles = []) :
    place_tile_on_board t side b =
      (true, "First tile placed",
        { tiles := [t], left_concept := some t.a_concept,
          right_concept := some t.b_concept }) := by
  unfold place_tile_on_board
  simp [h]

/-- Witness for C5 at a concrete tile and the initial board. -/
theorem empty_board_placement_seeds_ends_witness :
    place_tile_on_board
        { id := 3, a := "d/dx x^2", b := "lim", a_concept := "derivative",
          b_concept := "limit", orientation := Orient.vertical }
        Side.right init_board =
      (true, "First tile placed",
        { tiles := [{ id := 3, a := "d/dx x^2", b := "lim", a_concept := "derivative",
                      b_concept := "limit", orientation := Orient.vertical }],
          left_concept := some "derivative", right_concept := some "limit" }) :=
  empty_board_placement_seeds_ends _ Side.right init_board rfl

/-- Claim C4: on a non-empty board, placement at the left end succeeds
exactly when a face concept equals the left end label; face A matching
makes the new left label the face-B concept, otherwise face B matching
makes it the face-A concept, inserting the tile at the front; the
symmetric rule holds at the right end with the tile appended; a tile
matching neither face at the chosen end is rejected with the message
carrying the expected labels of the ends. -/
theorem place_side_rules (t : Tile) (b : Board) (h : b.tiles ≠ []) :
    ((place_tile_on_board t Side.left b).1 = true ↔
        (some t.a_concept = b.left_concept ∨ some t.b_concept = b.left_concept))
    ∧ (some t.a_concept = b.left_concept →
        place_tile_on_board t Side.left b =
          (true, "Matched left concept: " ++ t.a_concept,
            { b with tiles := t :: b.tiles, left_concept := some t.b_concept }))
    ∧ (some t.a_concept ≠ b.left_concept → some t.b_concept = b.left_concept →
        place_tile_on_board t Side.left b =
          (true, "Matched left concept: " ++ t.b_concept,
            { b with tiles := t :: b.tiles, left_concept := some t.a_concept }))
    ∧ (some t.a_concept ≠ b.left_concept → some t.b_concept ≠ b.left_concept →
        place_tile_on_board t Side.left b = (false, mismatch_message b, b))
    ∧ ((place_tile_on_board t Side.right b).1 = true ↔
        (some t.a_concept = b.right_concept ∨ some t.b_concept = b.right_concept))
    ∧ (some t.a_concept = b.right_concept →
        place_tile_on_board t Side.right b =
          (true, "Matched right concept: " ++ t.a_concept,
            { b with tiles := b.tiles ++ [t], right_concept := some t.b_concept }))
    ∧ (some t.a_concept ≠ b.right_concept → some t.b_concept = b.right_concept →
        place_tile_on_board t Side.right b =
          (true, "Matched right concept: " ++ t.b_concept,
            { b with tiles := b.tiles ++ [t], right_concept := some t.a_concept }))
    ∧ (some t.a_concept ≠ b.right_concept → some t.b_concept ≠ b.right_concept →
        place_tile_on_board t Side.right b = (false, mismatch_message b, b)) := by
  refine ⟨?_, ?_, ?_, ?_, ?_, ?_, ?_, ?_⟩
  · by_cases h1 : some t.a_concept = b.left_concept <;>
      by_cases h2 : some t.b_concept = b.left_concept <;>
      simp [place_tile_on_board, h, h1, h2]
  · intro h1; simp [place_tile_on_board, h, h1]
  · intro h1 h2; simp [place_tile_on_board, h, h1, h2]
  · intro h1 h2; simp [place_tile_on_board, h, h1, h2]
  · by_cases h3 : some t.a_concept = b.right_concept <;>
      by_cases h4 : some t.b_concept = b.right_concept <;>
      simp [place_tile_on_board, h, h3, h4]
  · intro h3; simp [place_tile_on_board, h, h3]
  · intro h3 h4; simp [place_tile_on_board, h, h3, h4]
  · intro h3 h4; simp [place_tile_on_board, h, h3, h4]

/-- Witness for C4 at a concrete tile and a concrete non-empty board. -/
theorem place_side_rules_witness :
    let t : Tile := { id := 1, a := "x", b := "y", a_concept := "limit",
                      b_concept := "gradient", orientation := Orient.horizontal }
    let b : Board := { tiles := [default_tile], left_concept := some "limit",
                       right_concept := some "chain rule" }
    ((place_tile_on_board t Side.left b).1 = true ↔
        (some t.a_concept = b.left_concept ∨ some t.b_concept = b.left_concept))
    ∧ (some t.a_concept = b.left_concept →
        place_tile_on_board t Side.left b =
          (true, "Matched left concept: " ++ t.a_concept,
            { b with tiles := t :: b.tiles, left_concept := some t.b_concept }))
    ∧ (some t.a_concept ≠ b.left_concept → some t.b_concept = b.left_concept →
        place_tile_on_board t Side.left b =
          (true, "Matched left concept: " ++ t.b_concept,
            { b with tiles := t :: b.tiles, left_concept := some t.a_concept }))
    ∧ (some t.a_concept ≠ b.left_concept → some t.b_concept ≠ b.left_concept →
        place_tile_on_board t Side.left b = (false, mismatch_message b, b))
    ∧ ((place_tile_on_board t Side.right b).1 = true ↔
        (some t.a_concept = b.right_concept ∨ some t.b_concept = b.right_concept))
    ∧ (some t.a_concept = b.right_concept →
        place_tile_on_board t Side.right b =
          (true, "Matched right concept: " ++ t.a_concept,
            { b with tiles := b.tiles ++ [t], right_concept := some t.b_concept }))
    ∧ (some t.a_concept ≠ b.right_concept → some t.b_concept = b.right_concept →
        place_tile_on_board t Side.right b =
          (true, "Matched right concept: " ++ t.b_concept,
            { b with tiles := b.tiles ++ [t], right_concept := some t.a_concept }))
    ∧ (some t.a_concept ≠ b.right_concept → some t.b_concept ≠ b.right_concept →
        place_tile_on_board t Side.right b = (false, mismatch_message b, b)) :=
  place_side_rules _ _ (by decide)

/-- Claim C10: when both face concepts equal the open concept at the
chosen end of a non-empty board, `place_tile_on_board` commits the
face-A branch — the new end label is the face-B concept and the feedback
names face A — and the function offers no argument to select face B. -/
theorem both_faces_match_commits_face_a (t : Tile) (b : Board) (h : b.tiles ≠ []) :
    (some t.a_concept = b.left_concept → some t.b_concept = b.left_concept →
      place_tile_on_board t Side.left b =
        (true, "Matched left concept: " ++ t.a_concept,
          { b with tiles := t :: b.tiles, left_concept := some t.b_concept }))
    ∧ (some t.a_concept = b.right_concept → some t.b_concept = b.right_concept →
      place_tile_on_board t Side.right b =
        (true, "Matched right concept: " ++ t.a_concept,
          { b with tiles := b.tiles ++ [t], right_concept := some t.b_concept })) := by
  unfold place_tile_on_board
  constructor <;> intro h1 h2 <;> simp [h, h1, h2]

/-- Witness for C10: a doubly matching tile at the left end of a
concrete non-empty board. -/
theorem both_faces_match_commits_face_a_witness :
    let t : Tile := { id := 2, a := "u", b := "v", a_concept := "limit",
                      b_concept := "limit", orientation := Orient.horizontal }
    let b : Board := { tiles := [default_tile], left_concept := some "limit",
                       right_concept := some "limit" }
    (some t.a_concept = b.left_concept → some t.b_concept = b.left_concept →
      place_tile_on_board t Side.left b =
        (true, "Matched left concept: " ++ t.a_concept,
          { b with tiles := t :: b.tiles, left_concept := some t.b_concept }))
    ∧ (some t.a_concept = b.right_concept → some t.b_concept = b.right_concept →
      place_tile_on_board t Side.right b =
        (true, "Matched right concept: " ++ t.a_concept,
          { b with tiles := b.tiles ++ [t], right_concept := some t.b_concept })) :=
  both_faces_match_commits_face_a _ _ (by decide)

/-- Claim C9: the board invariant — both end labels are null exactly on
an empty chain, and a non-empty chain has both labels set — holds for
`init_board` and is preserved by every `place_tile_on_board` call. -/
theorem board_inv_init_and_place :
    board_inv init_board ∧
    ∀ (t : Tile) (side : Side) (b : Board), board_inv b →
      board_inv (place_tile_on_board t side b).2.2 := by
  constructor
  · exact ⟨fun _ => ⟨rfl, rfl⟩, fun hne => absurd rfl hne⟩
  · intro t side b hb
    unfold place_tile_on_board
    by_cases hE : b.tiles = []
    · simp [hE, board_inv]
    · have hset := hb.2 hE
      cases side <;> split_ifs <;>
        simp_all [board_inv]

/-- Witness for C9: preservation applied to a concrete placement on a
concrete invariant-satisfying board. -/
theorem board_inv_init_and_place_witness :
    board_inv
      (place_tile_on_board
        { id := 5, a := "p", b := "q", a_concept := "integral",
          b_concept := "series", orientation := Orient.horizontal }
        Side.left
        { tiles := [default_tile], left_concept := some "integral",
          right_concept := some "series" }).2.2 :=
  board_inv_init_and_place.2 _ Side.left _ (by decide)

/-- Claim C8: toggling the orientation of a tile (the rotate handler)
changes no output of the move computation: the match test, the success
flag, the feedback message and the resulting board shape (tile order up
to orientation plus both end labels) are identical for both orientation
values. -/
theorem orientation_noninterference (t : Tile) (side : Side) (b : Board) :
    tile_matches (rotate_tile t) b = tile_matches t b ∧
    (place_tile_on_board (rotate_tile t) side b).1 =
      (place_tile_on_board t side b).1 ∧
    (place_tile_on_board (rotate_tile t) side b).2.1 =
      (place_tile_on_board t side b).2.1 ∧
    board_shape (place_tile_on_board (rotate_tile t) side b).2.2 =
      board_shape (place_tile_on_board t side b).2.2 := by
  refine ⟨by simp [tile_matches, rotate_tile], ?_⟩
  unfold place_tile_on_board rotate_tile
  by_cases hE : b.tiles = [] <;>
    cases side <;>
    split_ifs <;>
    simp_all [board_shape, strip_orient]

/-- Claim C6: when the board is non-empty and no face concept of any
tile in the acting player's hand equals either open end label, the turn
auto-passes with no player action: the turn index advances by exactly
one modulo the player count and nothing else (scores, hands, board)
changes. -/
theorem auto_pass_when_no_match (s : GameState)
    (hb : s.board.tiles ≠ [])
    (hm : ∀ t ∈ (s.players.getD s.turn_index default_player).hand,
        some t.a_concept ≠ s.board.left_concept ∧
        some t.a_concept ≠ s.board.right_concept ∧
        some t.b_concept ≠ s.board.left_concept ∧
        some t.b_concept ≠ s.board.right_concept) :
    turn_step s =
      (TurnPhase.autoPassed,
        { s with turn_index := (s.turn_index + 1) % s.players.length }) := by
  have hvi : valid_indices (s.players.getD s.turn_index default_player).hand s.board
      = [] := by
    unfold valid_indices
    have hfil : ((s.players.getD s.turn_index default_player).hand.enum.filter
        (fun p => tile_matches p.2 s.board)) = [] := by
      refine List.filter_eq_nil_iff.mpr ?_
      intro p hp
      obtain ⟨h1, h2, h3, h4⟩ := hm p.2 (List.snd_mem_of_mem_enum hp)
      simp [tile_matches, hb, h1, h2, h3, h4]
    rw [hfil, List.map_nil]
  simp only [turn_step]
  rw [hvi]
  simp

/-- Witness for C6: a concrete state whose acting hand matches neither
end of a concrete non-empty board. -/
theorem auto_pass_when_no_match_witness :
    turn_step
        { players := [{ hand := [{ id := 0, a := "", b := "", a_concept := "gradient",
                                   b_concept := "series", orientation := Orient.horizontal }],
                        score := 0 },
                      { hand := [], score := 0 }],
          turn_index := 0,
          board := { tiles := [default_tile], left_concept := some "limit",
                     right_concept := some "integral" } } =
      (TurnPhase.autoPassed,
        { players := [{ hand := [{ id := 0, a := "", b := "", a_concept := "gradient",
                                   b_concept := "series", orientation := Orient.horizontal }],
                        score := 0 },
                      { hand := [], score := 0 }],
          turn_index := 1,
          board := { tiles := [default_tile], left_concept := some "limit",
                     right_concept := some "integral" } }) :=
  auto_pass_when_no_match _ (by decide) (by decide)

/-- On a successful placement the resulting chain is the old chain with
the placed tile added at the front or at the back. -/
lemma place_success_tiles (t : Tile) (side : Side) (b : Board)
    (hs : (place_tile_on_board t side b).1 = true) :
    (place_tile_on_board t side b).2.2.tiles = t :: b.tiles ∨
    (place_tile_on_board t side b).2.2.tiles = b.tiles ++ [t] := by
  unfold place_tile_on_board at hs ⊢
  by_cases hE : b.tiles = []
  · simp [hE]
  · cases side <;> simp only [if_neg hE] at hs ⊢ <;> split_ifs at hs ⊢ <;> simp_all

/-- Claim C7: a placement committed with a non-empty justification that
the board accepts removes exactly the played tile from the acting hand,
adds exactly that tile to the board chain, raises the acting score by 4
and advances the turn index by one modulo the player count. -/
theorem successful_play_updates (s : GameState) (idx : Nat) (side : Side)
    (j : String)
    (hj : py_strip j ≠ "")
    (ht : s.turn_index < s.players.length)
    (hidx : idx < (s.players.getD s.turn_index default_player).hand.length)
    (hs : (place_tile_on_board
            ((s.players.getD s.turn_index default_player).hand.getD idx default_tile)
            side s.board).1 = true) :
    playTile s idx side j =
      (MoveResult.played
          (place_tile_on_board
            ((s.players.getD s.turn_index default_player).hand.getD idx default_tile)
            side s.board).2.1,
        { players := s.players.set s.turn_index
            { hand := (s.players.getD s.turn_index default_player).hand.eraseIdx idx,
              score := (s.players.getD s.turn_index default_player).score + 4 },
          turn_index := (s.turn_index + 1) % s.players.length,
          board := (place_tile_on_board
            ((s.players.getD s.turn_index default_player).hand.getD idx default_tile)
            side s.board).2.2 }) ∧
    ((s.players.getD s.turn_index default_player).hand.eraseIdx idx).length + 1 =
      (s.players.getD s.turn_index default_player).hand.length ∧
    ((place_tile_on_board
        ((s.players.getD s.turn_index default_player).hand.getD idx default_tile)
        side s.board).2.2.tiles =
      ((s.players.getD s.turn_index default_player).hand.getD idx default_tile)
        :: s.board.tiles ∨
     (place_tile_on_board
        ((s.players.getD s.turn_index default_player).hand.getD idx default_tile)
        side s.board).2.2.tiles =
      s.board.tiles ++
        [(s.players.getD s.turn_index default_player).hand.getD idx default_tile]) := by
  refine ⟨?_, ?_, place_success_tiles _ side _ hs⟩
  · have hs' := hs
    simp only [List.getD_eq_getElem?_getD] at hs'
    simp [playTile, hj, hs']
  · rw [List.length_eraseIdx_of_lt hidx]
    omega

/-- Witness for C7: a concrete matching play on a concrete board. -/
theorem successful_play_updates_witness :
    let s : GameState :=
      { players := [{ hand := [{ id := 7, a := "", b := "", a_concept := "limit",
                                 b_concept := "series", orientation := Orient.horizontal }],
                      score := 1 },
                    { hand := [], score := 0 }],
        turn_index := 0,
        board := { tiles := [default_tile], left_concept := some "limit",
                   right_concept := some "integral" } }
    playTile s 0 Side.left "it matches the left concept" =
      (MoveResult.played
          (place_tile_on_board
            ((s.players.getD s.turn_index default_player).hand.getD 0 default_tile)
            Side.left s.board).2.1,
        { players := s.players.set s.turn_index
            { hand := (s.players.getD s.turn_index default_player).hand.eraseIdx 0,
              score := (s.players.getD s.turn_index default_player).score + 4 },
          turn_index := (s.turn_index + 1) % s.players.length,
          board := (place_tile_on_board
            ((s.players.getD s.turn_index default_player).hand.getD 0 default_tile)
            Side.left s.board).2.2 }) ∧
    ((s.players.getD s.turn_index default_player).hand.eraseIdx 0).length + 1 =
      (s.players.getD s.turn_index default_player).hand.length ∧
    ((place_tile_on_board
        ((s.players.getD s.turn_index default_player).hand.getD 0 default_tile)
        Side.left s.board).2.2.tiles =
      ((s.players.getD s.turn_index default_player).hand.getD 0 default_tile)
        :: s.board.tiles ∨
     (place_tile_on_board
        ((s.players.getD s.turn_index default_player).hand.getD 0 default_tile)
        Side.left s.board).2.2.tiles =
      s.board.tiles ++
        [(s.players.getD s.turn_index default_player).hand.getD 0 default_tile]) :=
  successful_play_updates _ 0 Side.left _ (by decide) (by decide) (by decide) (by decide)

/-- Claim C3 (amended part): an illegal placement attempted with a
non-empty justification changes nothing at all — no score delta, same
turn index, same hands, same board — and reports the mismatch with the
expected end labels. -/
theorem illegal_placement_changes_nothing (s : GameState) (idx : Nat) (side : Side)
    (j : String)
    (hj : py_strip j ≠ "")
    (hf : (place_tile_on_board
            ((s.players.getD s.turn_index default_player).hand.getD idx default_tile)
            side s.board).1 = false) :
    playTile s idx side j =
      (MoveResult.rejectedPlacement (mismatch_message s.board), s) := by
  have heq := place_fail_id _ side _ hf
  simp only [List.getD_eq_getElem?_getD] at heq
  simp [playTile, hj, heq]

/-- A tile whose concepts match nothing on the boards used below. -/
def cex_tile : Tile :=
  { id := 0, a := "", b := "", a_concept := "u", b_concept := "v",
    orientation := Orient.horizontal }

/-- A one-player state whose only tile matches neither open end. -/
def cex_state : GameState :=
  { players := [{ hand := [cex_tile], score := 0 }],
    turn_index := 0,
    board := { tiles := [default_tile], left_concept := some "x",
               right_concept := some "y" } }

/-- Counterexample for C3 as stated: the first rejected placement of a
turn leaves the acting score unchanged (delta 0), not lowered by 2. -/
theorem illegal_placement_no_penalty_cex :
    (playTile cex_state 0 Side.left "reason").2 = cex_state ∧
    ((playTile cex_state 0 Side.left "reason").2.players.getD 0 default_player).score
      = 0 := by decide

/-- Witness for the amended C3 theorem at a concrete rejected move. -/
theorem illegal_placement_changes_nothing_witness :
    playTile cex_state 0 Side.left "reason" =
      (MoveResult.rejectedPlacement (mismatch_message cex_state.board), cex_state) :=
  illegal_placement_changes_nothing cex_state 0 Side.left "reason"
    (by decide) (by decide)

/-- Claim C2 (amended part): a successful placement that empties the
acting hand is treated as an ordinary success — no terminal transition
and no winner: the turn index advances by one modulo the player count
and the acting player keeps an empty hand and a score raised by 4, so
the session continues. -/
theorem emptying_hand_not_terminal (s : GameState) (idx : Nat) (side : Side)
    (j : String)
    (hj : py_strip j ≠ "")
    (ht : s.turn_index < s.players.length)
    (hs : (place_tile_on_board
            ((s.players.getD s.turn_index default_player).hand.getD idx default_tile)
            side s.board).1 = true)
    (hwin : (s.players.getD s.turn_index default_player).hand.eraseIdx idx = []) :
    (playTile s idx side j).1 =
      MoveResult.played
        (place_tile_on_board
          ((s.players.getD s.turn_index default_player).hand.getD idx default_tile)
          side s.board).2.1 ∧
    (playTile s idx side j).2.turn_index = (s.turn_index + 1) % s.players.length ∧
    ((playTile s idx side j).2.players.getD s.turn_index default_player).hand = [] ∧
    ((playTile s idx side j).2.players.getD s.turn_index default_player).score =
      (s.players.getD s.turn_index default_player).score + 4 := by
  have hs' := hs
  have hwin' := hwin
  simp only [List.getD_eq_getElem?_getD, List.getElem?_eq_getElem ht,
    Option.getD_some] at hs' hwin'
  simp [playTile, hj, hs', hwin', List.getD_eq_getElem?_getD,
    List.getElem?_set_self, ht]

/-- The first winning tile of the concrete two-player run below. -/
def win_tile_one : Tile :=
  { id := 0, a := "", b := "", a_concept := "p", b_concept := "q",
    orientation := Orient.horizontal }

/-- The second player's matching tile in the run below. -/
def win_tile_two : Tile :=
  { id := 1, a := "", b := "", a_concept := "q", b_concept := "r",
    orientation := Orient.horizontal }

/-- Two players with one tile each, before any move. -/
def win_state : GameState :=
  { players := [{ hand := [win_tile_one], score := 0 },
                { hand := [win_tile_two], score := 0 }],
    turn_index := 0, board := init_board }

/-- Counterexample for C2 as stated: after a successful placement that
empties player one's hand, the session still accepts a further
placement from player two — no game-over state exists. -/
theorem move_accepted_after_empty_hand_cex :
    (((playTile win_state 0 Side.left "j").2.players.getD 0 default_player).hand
      = []) ∧
    (playTile (playTile win_state 0 Side.left "j").2 0 Side.right "j").1 =
      MoveResult.played ("Matched right concept: q") ∧
    (playTile (playTile win_state 0 Side.left "j").2 0 Side.right "j").2 ≠
      (playTile win_state 0 Side.left "j").2 := by decide

/-- Witness for the amended C2 theorem at the concrete winning move. -/
theorem emptying_hand_not_terminal_witness :
    (playTile win_state 0 Side.left "j").1 =
      MoveResult.played
        (place_tile_on_board
          ((win_state.players.getD win_state.turn_index default_player).hand.getD 0
            default_tile)
          Side.left win_state.board).2.1 ∧
    (playTile win_state 0 Side.left "j").2.turn_index =
      (win_state.turn_index + 1) % win_state.players.length ∧
    ((playTile win_state 0 Side.left "j").2.players.getD win_state.turn_index
        default_player).hand = [] ∧
    ((playTile win_state 0 Side.left "j").2.players.getD win_state.turn_index
        default_player).score =
      (win_state.players.getD win_state.turn_index default_player).score + 4 :=
  emptying_hand_not_terminal win_state 0 Side.left "j"
    (by decide) (by decide) (by decide) (by decide)

/-- Splitting a drop at `a` after `c` taken tiles re-assembles the drop
at `a`; used to re-assemble contiguously dealt hands. -/
lemma take_drop_chain {α : Type} (l : List α) (a c d : Nat) (hd : d = a + c) :
    (l.drop a).take c ++ l.drop d = l.drop a := by
  subst hd
  rw [← List.drop_drop c a l]
  exact List.take_append_drop c (l.drop a)

/-- Claim C1 (amended part): for a deck of exactly 28 tiles and a player
count of 2 or 4, the dealt hands are contiguous slices whose
concatenation is the deck, whose sizes sum to 28, and which are pairwise
disjoint whenever the deck has no duplicate tile. -/
theorem deal_hands_partition (tiles : List Tile) (n : Nat)
    (hlen : tiles.length = 28) (hn : n = 2 ∨ n = 4) :
    (dealHands tiles n).flatten = tiles ∧
    ((dealHands tiles n).map List.length).sum = 28 ∧
    (tiles.Nodup → (dealHands tiles n).Pairwise List.Disjoint) := by
  have hflat : (dealHands tiles n).flatten = tiles := by
    rcases hn with rfl | rfl
    · have e : dealHands tiles 2 = [tiles.take 14, (tiles.drop 14).take 14] := rfl
      rw [e]
      have h14 : (tiles.drop 14).take 14 = tiles.drop 14 :=
        List.take_of_length_le (by simp [hlen])
      simp only [List.flatten_cons, List.flatten_nil, List.append_nil, h14]
      exact List.take_append_drop 14 tiles
    · have e : dealHands tiles 4 =
          [tiles.take 7, (tiles.drop 7).take 7,
           (tiles.drop 14).take 7, (tiles.drop 21).take 7] := rfl
      rw [e]
      have h21 : (tiles.drop 21).take 7 = tiles.drop 21 :=
        List.take_of_length_le (by simp [hlen])
      simp only [List.flatten_cons, List.flatten_nil, List.append_nil, h21]
      rw [take_drop_chain tiles 14 7 21 (by norm_num),
          take_drop_chain tiles 7 7 14 (by norm_num)]
      exact List.take_append_drop 7 tiles
  refine ⟨hflat, ?_, ?_⟩
  · rw [← List.length_flatten, hflat, hlen]
  · intro hnd
    have hjn : (dealHands tiles n).flatten.Nodup := by rw [hflat]; exact hnd
    exact (List.nodup_flatten.mp hjn).2

/-- A distinct tile per index, used by the concrete decks below. -/
def mk_tile (k : Nat) : Tile :=
  { id := k, a := "", b := "", a_concept := "", b_concept := "",
    orientation := Orient.horizontal }

/-- Counterexample for C1 as stated: a 27-tile deck is dealt without any
failure — two hands of sizes 14 and 13 are produced, so no deck-size
validation exists. -/
theorem deal_no_size_check_cex :
    ((List.range 27).map mk_tile).length = 27 ∧
    (dealHands ((List.range 27).map mk_tile) 2).map List.length = [14, 13] := by
  decide

/-- Witness for the amended C1 theorem at a concrete 28-tile deck. -/
theorem deal_hands_partition_witness :
    (dealHands ((List.range 28).map mk_tile) 2).flatten =
      (List.range 28).map mk_tile ∧
    ((dealHands ((List.range 28).map mk_tile) 2).map List.length).sum = 28 ∧
    (((List.range 28).map mk_tile).Nodup →
      (dealHands ((List.range 28).map mk_tile) 2).Pairwise List.Disjoint) :=
  deal_hands_partition ((List.range 28).map mk_tile) 2 (by decide) (Or.inl rfl)

end Domino
